import Mathlib

/-!
Shallow embedding of the VISITWISE motion-capture pipeline.

The sources embedded here are src/main.py (the final variant) and
src/record.py (an earlier working variant of the same script).  Pure
control flow is translated directly; external effects (camera capture,
the OpenCV detection pipeline, the filesystem, the HTTP POST, the ffmpeg
subprocess) are modelled as explicit inputs and explicit result fields,
exactly following the branching of the source.
-/

namespace VisitWise

/-- src/main.py line 23: hardcoded device identifier. -/
def DEVICE_ID : String := "DEV3617"

/-- src/main.py line 26: recording duration in seconds. -/
def VIDEO_DURATION : ℚ := 5

/-- src/main.py line 30: seconds to wait after recording. -/
def COOLDOWN_PERIOD : ℚ := 5

/-- src/main.py lines 50-57: the deviceId request parameter sent with every
upload is the hardcoded constant `DEVICE_ID`; no persistent-storage identity
file is consulted anywhere in the sources.  The argument models the contents
of such a backing file (`none` = missing or unreadable), which the code
ignores. -/
def deviceIdParam (identityFile : Option String) : String := DEVICE_ID

/-- Presence on disk of the two local files of one clip. -/
structure FileState where
  rawPresent : Bool
  mp4Present : Bool
deriving DecidableEq

/-- Outcome of the HTTP POST inside upload_video: either a response carrying
a status code, or a raised exception (RequestException or any other). -/
inductive PostOutcome
  | response (statusCode : ℕ)
  | exceptionRaised
deriving DecidableEq

namespace MainPy

/-- src/main.py lines 50-92 (upload_video).  The deletion for-loop at lines
63-85 is NOT indented under the `if response.status_code == 200` test at line
58 (only the success print and the 0.5 s sleep are), and `return True` at
line 86 is likewise outside the `if`: for every POST that returns a response,
whatever its status, both local files are deleted and True is returned.  Only
a raised exception yields False with no deletion.  Result: (returned value,
file state afterwards). -/
def upload_video (fs : FileState) : PostOutcome → Bool × FileState
  | .exceptionRaised => (false, fs)
  | .response _ => (true, { rawPresent := false, mp4Present := false })

end MainPy

namespace RecordPy

/-- src/record.py lines 46-74 (upload_video).  Here the deletion block and
`return True` are inside the status-200 branch; a non-200 status logs the
failure and returns False, leaving both files in place. -/
def upload_video (fs : FileState) : PostOutcome → Bool × FileState
  | .exceptionRaised => (false, fs)
  | .response s =>
    if s = 200 then (true, { rawPresent := false, mp4Present := false })
    else (false, fs)

end RecordPy

/-- Result of record_and_convert: whether the ffmpeg converter was invoked,
whether an mp4 path was returned (vs None), and the files on disk after it
returns. -/
structure RecordConvertOutcome where
  converterInvoked : Bool
  returnedMp4 : Bool
  files : FileState
deriving DecidableEq

/-- src/main.py lines 94-115 (record_and_convert).  `rawSize` is the byte
size of the raw .h264 file the encoder produced — the source performs no
check of any kind on it, so it is unused; `ffmpegExit` is the converter
subprocess's exit status.  ffmpeg is always invoked; a non-zero exit returns
None, a zero exit returns the mp4 path.  The raw file is never deleted here,
in either branch. -/
def record_and_convert (rawSize : ℕ) (ffmpegExit : ℤ) : RecordConvertOutcome :=
  { converterInvoked := true,
    returnedMp4 := decide (ffmpegExit = 0),
    files := { rawPresent := true, mp4Present := decide (ffmpegExit = 0) } }

/-- Net observable effect of one handle_motion call. -/
structure MotionPipelineResult where
  converterInvoked : Bool
  uploadCalled : Bool
  rawPresentAfterConvert : Bool
  uploadReturned : Option Bool
  finalFiles : FileState
deriving DecidableEq

/-- src/main.py lines 117-121 (handle_motion): run record_and_convert; if it
returned an mp4 path, call upload_video on it; otherwise do nothing further
(in particular no file is deleted on the conversion-failure path). -/
def handle_motion (rawSize : ℕ) (ffmpegExit : ℤ) (post : PostOutcome) :
    MotionPipelineResult :=
  let rc := record_and_convert rawSize ffmpegExit
  if rc.returnedMp4 then
    let u := MainPy.upload_video rc.files post
    { converterInvoked := rc.converterInvoked, uploadCalled := true,
      rawPresentAfterConvert := rc.files.rawPresent,
      uploadReturned := some u.1, finalFiles := u.2 }
  else
    { converterInvoked := rc.converterInvoked, uploadCalled := false,
      rawPresentAfterConvert := rc.files.rawPresent,
      uploadReturned := none, finalFiles := rc.files }

/-! ### Liveness / reboot model (modelled from the spec)

No corrupt counter, success timestamp, reboot latch or reboot call exists
anywhere under src/; these definitions are built from the spec's words
(§3 LivenessState, §4.2, §4.6). -/

/-- Outcome of one recording attempt, as classified by spec §4.2. -/
inductive RecOutcome
  | corrupt
  | convertFailed
  | success
deriving DecidableEq

/-- An event observed by the liveness model: a motion-triggered recording
attempt finishing with an outcome at time t, or a periodic idle check at
time t. -/
inductive LiveEvent
  | motion (outcome : RecOutcome) (t : ℚ)
  | idleCheck (t : ℚ)
deriving DecidableEq

/-- Modelled from the spec: LivenessState (spec §3) plus two observation
counters (number of reboot-action invocations, number of recordings
attempted). -/
structure LiveState where
  corruptCount : ℕ
  lastSuccessTimestamp : ℚ
  rebootTriggered : Bool
  rebootCount : ℕ
  recordingsAttempted : ℕ
deriving DecidableEq

/-- Modelled from the spec: the reboot action of LivenessSupervisor (spec
§4.6), absent from the repository sources.  Guarded by the rebootTriggered
latch so the OS-level restart is invoked at most once. -/
def fireReboot (s : LiveState) : LiveState :=
  if s.rebootTriggered then s
  else { s with rebootTriggered := true, rebootCount := s.rebootCount + 1 }

/-- Modelled from the spec: one step of RecordingWorker + LivenessSupervisor
(spec §4.2, §4.6), absent from the repository sources.  Corrupt-count
escalation is checked synchronously at the point corruptCount is
incremented, the counter is not reset on escalation; a successful conversion
resets corruptCount and updates lastSuccessTimestamp; idle escalation
compares now − lastSuccessTimestamp against the idle ceiling; both paths
funnel through `fireReboot`.  Once the latch is set the process is
restarting, so no further recording is attempted. -/
def liveStep (threshold : ℕ) (idleCeiling : ℚ) (s : LiveState) : LiveEvent → LiveState
  | .motion outcome t =>
    if s.rebootTriggered then s
    else
      let s1 := { s with recordingsAttempted := s.recordingsAttempted + 1 }
      match outcome with
      | .corrupt =>
        let s2 := { s1 with corruptCount := s1.corruptCount + 1 }
        if threshold ≤ s2.corruptCount then fireReboot s2 else s2
      | .convertFailed => s1
      | .success => { s1 with corruptCount := 0, lastSuccessTimestamp := t }
  | .idleCheck t =>
    if idleCeiling < t - s.lastSuccessTimestamp then fireReboot s else s

/-- Initial liveness state at process start. -/
def initLive : LiveState :=
  { corruptCount := 0, lastSuccessTimestamp := 0, rebootTriggered := false,
    rebootCount := 0, recordingsAttempted := 0 }

/-- Fold `liveStep` over a list of events. -/
def runLive (threshold : ℕ) (idleCeiling : ℚ) : LiveState → List LiveEvent → LiveState
  | s, [] => s
  | s, e :: rest => runLive threshold idleCeiling (liveStep threshold idleCeiling s e) rest

/-! ### The main detection loop (src/main.py lines 123-182, src/record.py
lines 104-163; the two are line-for-line identical here)

The captured frame type and the OpenCV detection pipeline (cvtColor,
absdiff, threshold, dilate, findContours, contourArea — lines 144, 155-166)
are abstracted as a type `F` and a pure function `detect : F → F → Bool`
giving the value of `motion_detected` for a (previous, current) frame pair;
every claim about the loop is quantified over them.  Wall-clock time
(`time.time()`) is modelled as a rational input per iteration. -/

/-- The loop-carried variables of main (src/main.py lines 137-139). -/
structure LoopState (F : Type) where
  prevFrame : Option F
  lastMotionTime : ℚ
  isRecording : Bool
deriving DecidableEq

/-- What one iteration of the while-loop did. -/
inductive LoopEvent
  | seeded
  | skipped
  | noMotion
  | recorded
deriving DecidableEq

/-- One iteration of the while-loop (src/main.py lines 142-182) given the
current time `t` and the captured (grayscale) frame `gray`:
* lines 146-148: first iteration only seeds prev_frame and continues;
* lines 150-153: if is_recording or within VIDEO_DURATION + COOLDOWN_PERIOD
  of the last motion, sleep and continue — nothing else changes;
* lines 155-166: otherwise compute motion_detected from (prev_frame, gray);
* line 168: advance prev_frame to the current frame;
* lines 170-180: on motion (and not recording) set is_recording = True,
  last_motion_time = current_time, spawn the handle_motion thread, sleep
  0.1 s, set is_recording = False — the net state change is
  lastMotionTime := t with isRecording back to false; the spawned thread
  keeps the encoder running for the interval [t, t + VIDEO_DURATION]. -/
def loopStep {F : Type} (detect : F → F → Bool) (st : LoopState F) (t : ℚ) (gray : F) :
    LoopState F × LoopEvent :=
  match st.prevFrame with
  | none => ({ st with prevFrame := some gray }, .seeded)
  | some prev =>
    if st.isRecording = true ∨ t - st.lastMotionTime < VIDEO_DURATION + COOLDOWN_PERIOD then
      (st, .skipped)
    else if detect prev gray = true ∧ st.isRecording = false then
      ({ prevFrame := some gray, lastMotionTime := t, isRecording := false }, .recorded)
    else
      ({ st with prevFrame := some gray }, .noMotion)

/-- Run the loop over a list of (time, frame) samples, returning the final
state and the per-iteration trace (time, event). -/
def runLoop {F : Type} (detect : F → F → Bool) :
    LoopState F → List (ℚ × F) → LoopState F × List (ℚ × LoopEvent)
  | st, [] => (st, [])
  | st, (t, f) :: rest =>
    let s := loopStep detect st t f
    let r := runLoop detect s.1 rest
    (r.1, (t, s.2) :: r.2)

/-- Initial loop state (src/main.py lines 137-139). -/
def initState (F : Type) : LoopState F :=
  { prevFrame := none, lastMotionTime := 0, isRecording := false }

/-- Start times of the recordings a trace contains. -/
def recordingTimes (tr : List (ℚ × LoopEvent)) : List ℚ :=
  (tr.filter (fun p => p.2 == LoopEvent.recorded)).map Prod.fst

/-- Number of recordings whose active encoder interval
[start, start + VIDEO_DURATION] contains the instant x. -/
def activeAt (tr : List (ℚ × LoopEvent)) (x : ℚ) : ℕ :=
  ((recordingTimes tr).filter (fun t => decide (t ≤ x ∧ x ≤ t + VIDEO_DURATION))).length

/-- src/main.py lines 36-48 (ensure_output_directory): makedirs + write a
test file; returns True when the directory is writable, False when any step
raises.  The argument is whether the output directory is writable. -/
def ensure_output_directory (writable : Bool) : Bool := writable

/-- Observable outcome of running main. -/
structure MainOutcome where
  cameraStarted : Bool
  iterations : List (ℚ × LoopEvent)
deriving DecidableEq

/-- src/main.py lines 123-182 (main): if ensure_output_directory fails,
print and return before the camera object is even constructed (line 128);
otherwise configure and start the camera and enter the detection loop. -/
def mainProgram {F : Type} (writable : Bool) (detect : F → F → Bool)
    (inputs : List (ℚ × F)) : MainOutcome :=
  if ensure_output_directory writable then
    { cameraStarted := true, iterations := (runLoop detect (initState F) inputs).2 }
  else
    { cameraStarted := false, iterations := [] }

/-! ### Clip naming (src/main.py lines 173-174 and 105-106)

`timestamp = datetime.now().strftime("%Y%m%d_%H%M%S")` — wall-clock time
truncated to whole seconds, no sub-second field in the format string; the
raw path is f"motion_{timestamp}.h264" (the OUTPUT_DIR prefix, common to
both files, is omitted here) and the mp4 path is
`video_path.replace('.h264', '.mp4')`. -/

/-- One decimal digit as a character. -/
def digitChar : ℕ → Char
  | 0 => '0' | 1 => '1' | 2 => '2' | 3 => '3' | 4 => '4'
  | 5 => '5' | 6 => '6' | 7 => '7' | 8 => '8' | _ => '9'

/-- Two-digit zero-padded decimal field (%m %d %H %M %S). -/
def pad2 (n : ℕ) : List Char := [digitChar (n / 10 % 10), digitChar (n % 10)]

/-- Four-digit zero-padded decimal field (%Y). -/
def pad4 (n : ℕ) : List Char :=
  [digitChar (n / 1000 % 10), digitChar (n / 100 % 10),
   digitChar (n / 10 % 10), digitChar (n % 10)]

/-- Civil date (year, month, day) from a day count since 1970-01-01, the
standard era-based algorithm. -/
def civilFromDays (z0 : ℕ) : ℕ × ℕ × ℕ :=
  let z := z0 + 719468
  let era := z / 146097
  let doe := z % 146097
  let yoe := (doe - doe / 1460 + doe / 36524 - doe / 146096) / 365
  let y := yoe + era * 400
  let doy := doe - (365 * yoe + yoe / 4 - yoe / 100)
  let mp := (5 * doy + 2) / 153
  let d := doy - (153 * mp + 2) / 5 + 1
  let m := if mp < 10 then mp + 3 else mp - 9
  (if m ≤ 2 then y + 1 else y, m, d)

/-- strftime("%Y%m%d_%H%M%S") on an epoch-second count. -/
def strftimeYmdHMS (epoch : ℕ) : List Char :=
  let days := epoch / 86400
  let sod := epoch % 86400
  let c := civilFromDays days
  pad4 c.1 ++ pad2 c.2.1 ++ pad2 c.2.2 ++ ['_'] ++
    pad2 (sod / 3600) ++ pad2 (sod % 3600 / 60) ++ pad2 (sod % 60)

/-- Whole seconds of a wall-clock instant, as used by strftime (the
sub-second part of `t` is discarded). -/
def wholeSeconds (t : ℚ) : ℕ := ⌊t⌋.toNat

/-- Base name of the clip recorded at instant t: "motion_" + timestamp
(src/main.py line 174). -/
def clipBase (t : ℚ) : List Char :=
  "motion_".data ++ strftimeYmdHMS (wholeSeconds t)

/-- Raw file name of the clip recorded at instant t. -/
def rawClipName (t : ℚ) : List Char := clipBase t ++ ".h264".data

/-- Python str.replace: replace every (leftmost, non-overlapping)
occurrence of `pat` by `rep`. -/
def pyReplace (pat rep : List Char) : List Char → List Char
  | [] => []
  | c :: rest =>
    if h : pat ≠ [] ∧ pat.isPrefixOf (c :: rest) then
      rep ++ pyReplace pat rep ((c :: rest).drop pat.length)
    else
      c :: pyReplace pat rep rest
termination_by l => l.length
decreasing_by
  · simp only [List.length_drop, List.length_cons]
    have hp : 0 < pat.length := List.length_pos.mpr h.1
    omega
  · simp

/-- Converted (mp4) file name of the clip recorded at instant t
(src/main.py line 105). -/
def mp4ClipName (t : ℚ) : List Char :=
  pyReplace ".h264".data ".mp4".data (rawClipName t)

/-! ## Helper lemmas -/

lemma liveStep_reboot_inv (threshold : ℕ) (idleCeiling : ℚ) (s : LiveState) (e : LiveEvent)
    (h1 : s.rebootTriggered = false → s.rebootCount = 0) (h2 : s.rebootCount ≤ 1) :
    ((liveStep threshold idleCeiling s e).rebootTriggered = false →
      (liveStep threshold idleCeiling s e).rebootCount = 0) ∧
    (liveStep threshold idleCeiling s e).rebootCount ≤ 1 := by
  cases e with
  | motion outcome t =>
    cases outcome <;>
      · simp only [liveStep, fireReboot]
        split_ifs <;> simp_all
  | idleCheck t =>
    simp only [liveStep, fireReboot]
    split_ifs <;> simp_all

lemma runLive_reboot_inv (threshold : ℕ) (idleCeiling : ℚ) :
    ∀ (evs : List LiveEvent) (s : LiveState),
      (s.rebootTriggered = false → s.rebootCount = 0) → s.rebootCount ≤ 1 →
      (runLive threshold idleCeiling s evs).rebootCount ≤ 1 := by
  intro evs
  induction evs with
  | nil => intro s _ h2; simpa [runLive] using h2
  | cons e rest ih =>
    intro s h1 h2
    have h := liveStep_reboot_inv threshold idleCeiling s e h1 h2
    simpa [runLive] using ih (liveStep threshold idleCeiling s e) h.1 h.2

lemma recordingTimes_cons (t : ℚ) (e : LoopEvent) (tr : List (ℚ × LoopEvent)) :
    recordingTimes ((t, e) :: tr) =
      if e = LoopEvent.recorded then t :: recordingTimes tr else recordingTimes tr := by
  by_cases h : e = LoopEvent.recorded <;> simp [recordingTimes, h]

lemma loopStep_none {F : Type} (detect : F → F → Bool) (st : LoopState F) (t : ℚ) (f : F)
    (hp : st.prevFrame = none) :
    loopStep detect st t f = ({ st with prevFrame := some f }, LoopEvent.seeded) := by
  simp [loopStep, hp]

lemma loopStep_skip {F : Type} (detect : F → F → Bool) (st : LoopState F) (t : ℚ) (f : F)
    (p : F) (hp : st.prevFrame = some p)
    (hg : st.isRecording = true ∨ t - st.lastMotionTime < VIDEO_DURATION + COOLDOWN_PERIOD) :
    loopStep detect st t f = (st, LoopEvent.skipped) := by
  simp [loopStep, hp, hg]

lemma loopStep_rec {F : Type} (detect : F → F → Bool) (st : LoopState F) (t : ℚ) (f : F)
    (p : F) (hp : st.prevFrame = some p)
    (hg : ¬(st.isRecording = true ∨ t - st.lastMotionTime < VIDEO_DURATION + COOLDOWN_PERIOD))
    (hd : detect p f = true) :
    loopStep detect st t f =
      ({ prevFrame := some f, lastMotionTime := t, isRecording := false },
        LoopEvent.recorded) := by
  have hr : st.isRecording = false := by
    cases hb : st.isRecording
    · rfl
    · exact absurd (Or.inl hb) hg
  simp [loopStep, hp, hg, hd, hr]
  push_neg at hg
  exact hg.2

lemma loopStep_noMotion {F : Type} (detect : F → F → Bool) (st : LoopState F) (t : ℚ) (f : F)
    (p : F) (hp : st.prevFrame = some p)
    (hg : ¬(st.isRecording = true ∨ t - st.lastMotionTime < VIDEO_DURATION + COOLDOWN_PERIOD))
    (hd : detect p f = false) :
    loopStep detect st t f = ({ st with prevFrame := some f }, LoopEvent.noMotion) := by
  simp [loopStep, hp, hg, hd]

lemma window_nonneg : (0 : ℚ) ≤ VIDEO_DURATION + COOLDOWN_PERIOD := by
  norm_num [VIDEO_DURATION, COOLDOWN_PERIOD]

lemma runLoop_recordings_sep {F : Type} (detect : F → F → Bool) :
    ∀ (inputs : List (ℚ × F)) (st : LoopState F),
      (∀ a ∈ recordingTimes (runLoop detect st inputs).2,
        st.lastMotionTime + (VIDEO_DURATION + COOLDOWN_PERIOD) ≤ a) ∧
      List.Pairwise (fun a b => a + (VIDEO_DURATION + COOLDOWN_PERIOD) ≤ b)
        (recordingTimes (runLoop detect st inputs).2) := by
  intro inputs
  induction inputs with
  | nil => intro st; simp [runLoop, recordingTimes]
  | cons tf rest ih =>
    obtain ⟨t, f⟩ := tf
    intro st
    simp only [runLoop]
    cases hp : st.prevFrame with
    | none =>
      rw [loopStep_none detect st t f hp]
      simpa [recordingTimes_cons] using ih { st with prevFrame := some f }
    | some p =>
      by_cases hg :
          st.isRecording = true ∨ t - st.lastMotionTime < VIDEO_DURATION + COOLDOWN_PERIOD
      · rw [loopStep_skip detect st t f p hp hg]
        simpa [recordingTimes_cons] using ih st
      · cases hd : detect p f with
        | false =>
          rw [loopStep_noMotion detect st t f p hp hg hd]
          simpa [recordingTimes_cons] using ih { st with prevFrame := some f }
        | true =>
          rw [loopStep_rec detect st t f p hp hg hd]
          have hle : st.lastMotionTime + (VIDEO_DURATION + COOLDOWN_PERIOD) ≤ t := by
            push_neg at hg
            linarith [hg.2]
          have ihr := ih { prevFrame := some f, lastMotionTime := t, isRecording := false }
          simp only [recordingTimes_cons, if_pos rfl]
          constructor
          · intro a ha
            rcases List.mem_cons.mp ha with rfl | ha'
            · exact hle
            · have := ihr.1 a ha'
              have h0 := window_nonneg
              simp only at this
              linarith
          · refine List.pairwise_cons.mpr ⟨?_, ihr.2⟩
            intro a ha
            have := ihr.1 a ha
            simp only at this
            linarith

lemma pairwise_active_le_one (l : List ℚ) (x : ℚ)
    (h : List.Pairwise (fun a b => a + (VIDEO_DURATION + COOLDOWN_PERIOD) ≤ b) l) :
    (l.filter (fun t => decide (t ≤ x ∧ x ≤ t + VIDEO_DURATION))).length ≤ 1 := by
  have hf := h.filter (fun t => decide (t ≤ x ∧ x ≤ t + VIDEO_DURATION))
  cases hl : l.filter (fun t => decide (t ≤ x ∧ x ≤ t + VIDEO_DURATION)) with
  | nil => simp
  | cons a tl =>
    cases tl with
    | nil => simp
    | cons b tl2 =>
      exfalso
      rw [hl] at hf
      have hab : a + (VIDEO_DURATION + COOLDOWN_PERIOD) ≤ b :=
        (List.pairwise_cons.mp hf).1 b (by simp)
      have ha : a ∈ l.filter (fun t => decide (t ≤ x ∧ x ≤ t + VIDEO_DURATION)) := by
        rw [hl]; simp
      have hb : b ∈ l.filter (fun t => decide (t ≤ x ∧ x ≤ t + VIDEO_DURATION)) := by
        rw [hl]; simp
      have ha2 : a ≤ x ∧ x ≤ a + VIDEO_DURATION :=
        of_decide_eq_true (List.mem_filter.mp ha).2
      have hb2 : b ≤ x ∧ x ≤ b + VIDEO_DURATION :=
        of_decide_eq_true (List.mem_filter.mp hb).2
      have hc : (0 : ℚ) < COOLDOWN_PERIOD := by norm_num [COOLDOWN_PERIOD]
      linarith [ha2.1, ha2.2, hb2.1, hb2.2]

lemma loopStep_skipped_eq {F : Type} (detect : F → F → Bool) (st : LoopState F) (t : ℚ) (f : F)
    (h : (loopStep detect st t f).2 = LoopEvent.skipped) : (loopStep detect st t f).1 = st := by
  cases hp : st.prevFrame with
  | none =>
    rw [loopStep_none detect st t f hp] at h
    simp at h
  | some p =>
    by_cases hg :
        st.isRecording = true ∨ t - st.lastMotionTime < VIDEO_DURATION + COOLDOWN_PERIOD
    · rw [loopStep_skip detect st t f p hp hg]
    · cases hd : detect p f with
      | false => rw [loopStep_noMotion detect st t f p hp hg hd] at h; simp at h
      | true => rw [loopStep_rec detect st t f p hp hg hd] at h; simp at h

lemma skip_within_window {F : Type} (detect : F → F → Bool) :
    ∀ (inputs : List (ℚ × F)) (st : LoopState F) (m : ℚ),
      st.prevFrame ≠ none → m ≤ st.lastMotionTime →
      ∀ (j : ℕ) (tj : ℚ) (ej : LoopEvent),
        (runLoop detect st inputs).2[j]? = some (tj, ej) →
        tj < m + (VIDEO_DURATION + COOLDOWN_PERIOD) → ej = LoopEvent.skipped := by
  intro inputs
  induction inputs with
  | nil => intro st m _ _ j tj ej hj; simp [runLoop] at hj
  | cons tf rest ih =>
    obtain ⟨t, f⟩ := tf
    intro st m hprev hm j tj ej hj hlt
    obtain ⟨p, hp⟩ : ∃ p, st.prevFrame = some p := by
      cases hq : st.prevFrame
      · exact absurd hq hprev
      · exact ⟨_, rfl⟩
    simp only [runLoop] at hj
    cases j with
    | zero =>
      simp only [List.getElem?_cons_zero, Option.some.injEq, Prod.mk.injEq] at hj
      obtain ⟨ht, he⟩ := hj
      have hg : st.isRecording = true ∨
          t - st.lastMotionTime < VIDEO_DURATION + COOLDOWN_PERIOD := by
        right
        rw [ht]
        linarith
      rw [← he, loopStep_skip detect st t f p hp hg]
    | succ j' =>
      simp only [List.getElem?_cons_succ] at hj
      by_cases hg :
          st.isRecording = true ∨ t - st.lastMotionTime < VIDEO_DURATION + COOLDOWN_PERIOD
      · rw [loopStep_skip detect st t f p hp hg] at hj
        exact ih st m hprev hm j' tj ej hj hlt
      · cases hd : detect p f with
        | false =>
          rw [loopStep_noMotion detect st t f p hp hg hd] at hj
          exact ih { st with prevFrame := some f } m (by simp) hm j' tj ej hj hlt
        | true =>
          rw [loopStep_rec detect st t f p hp hg hd] at hj
          have hmt : m ≤ t := by
            push_neg at hg
            have h0 := window_nonneg
            linarith [hg.2]
          exact ih { prevFrame := some f, lastMotionTime := t, isRecording := false }
            m (by simp) hmt j' tj ej hj hlt

lemma recorded_then_skip {F : Type} (detect : F → F → Bool) :
    ∀ (inputs : List (ℚ × F)) (st : LoopState F) (i j : ℕ) (ti tj : ℚ) (ej : LoopEvent),
      i < j →
      (runLoop detect st inputs).2[i]? = some (ti, LoopEvent.recorded) →
      (runLoop detect st inputs).2[j]? = some (tj, ej) →
      tj < ti + (VIDEO_DURATION + COOLDOWN_PERIOD) → ej = LoopEvent.skipped := by
  intro inputs
  induction inputs with
  | nil => intro st i j ti tj ej _ hi _ _; simp [runLoop] at hi
  | cons tf rest ih =>
    obtain ⟨t, f⟩ := tf
    intro st i j ti tj ej hij hi hj hlt
    simp only [runLoop] at hi hj
    obtain ⟨j', rfl⟩ : ∃ j', j = j' + 1 := ⟨j - 1, by omega⟩
    simp only [List.getElem?_cons_succ] at hj
    cases i with
    | zero =>
      simp only [List.getElem?_cons_zero, Option.some.injEq, Prod.mk.injEq] at hi
      obtain ⟨ht, hrec⟩ := hi
      subst ht
      cases hp : st.prevFrame with
      | none =>
        rw [loopStep_none detect st t f hp] at hrec
        simp at hrec
      | some p =>
        by_cases hg :
            st.isRecording = true ∨ t - st.lastMotionTime < VIDEO_DURATION + COOLDOWN_PERIOD
        · rw [loopStep_skip detect st t f p hp hg] at hrec
          simp at hrec
        · cases hd : detect p f with
          | false =>
            rw [loopStep_noMotion detect st t f p hp hg hd] at hrec
            simp at hrec
          | true =>
            rw [loopStep_rec detect st t f p hp hg hd] at hj
            exact skip_within_window detect rest
              { prevFrame := some f, lastMotionTime := t, isRecording := false }
              t (by simp) (le_refl t) j' tj ej hj hlt
    | succ i' =>
      simp only [List.getElem?_cons_succ] at hi
      exact ih (loopStep detect st t f).1 i' j' ti tj ej (by omega) hi hj hlt

lemma isPrefixOf_self_char (l : List Char) : l.isPrefixOf l = true := by
  induction l with
  | nil => rfl
  | cons a tl ih => simp [List.isPrefixOf, ih]

lemma isPrefixOf_cons_of_ne (a c : Char) (pt l : List Char) (h : a ≠ c) :
    (a :: pt).isPrefixOf (c :: l) = false := by
  simp [List.isPrefixOf, h]

lemma pyReplace_tail (pc : Char) (pt rep xs : List Char) (h : pc ∉ xs) :
    pyReplace (pc :: pt) rep (xs ++ (pc :: pt)) = xs ++ rep := by
  induction xs with
  | nil =>
    simp only [List.nil_append]
    rw [pyReplace]
    rw [dif_pos ⟨List.cons_ne_nil pc pt, isPrefixOf_self_char (pc :: pt)⟩]
    rw [List.drop_length, pyReplace]
    simp
  | cons a xs' ih =>
    have hne : pc ≠ a := fun hh => h (hh ▸ List.mem_cons_self a xs')
    have h' : pc ∉ xs' := fun hm => h (List.mem_cons_of_mem a hm)
    simp only [List.cons_append]
    rw [pyReplace]
    rw [dif_neg]
    · rw [ih h']
    · intro hcontr
      have hpre := hcontr.2
      rw [isPrefixOf_cons_of_ne pc a pt (xs' ++ pc :: pt) hne] at hpre
      exact Bool.false_ne_true hpre

lemma digitChar_ne_dot (n : ℕ) : digitChar n ≠ '.' := by
  unfold digitChar
  split <;> decide

lemma dot_not_mem_pad2 (n : ℕ) : '.' ∉ pad2 n := by
  intro hmem
  simp only [pad2, List.mem_cons, List.not_mem_nil, or_false] at hmem
  rcases hmem with h | h <;> exact digitChar_ne_dot _ h.symm

lemma dot_not_mem_pad4 (n : ℕ) : '.' ∉ pad4 n := by
  intro hmem
  simp only [pad4, List.mem_cons, List.not_mem_nil, or_false] at hmem
  rcases hmem with h | h | h | h <;> exact digitChar_ne_dot _ h.symm

lemma dot_not_mem_strftime (n : ℕ) : '.' ∉ strftimeYmdHMS n := by
  intro hmem
  simp only [strftimeYmdHMS, List.mem_append, List.mem_singleton] at hmem
  rcases hmem with ((((((h | h) | h) | h) | h) | h) | h)
  · exact dot_not_mem_pad4 _ h
  · exact dot_not_mem_pad2 _ h
  · exact dot_not_mem_pad2 _ h
  · exact absurd h (by decide)
  · exact dot_not_mem_pad2 _ h
  · exact dot_not_mem_pad2 _ h
  · exact dot_not_mem_pad2 _ h

lemma dot_not_mem_clipBase (t : ℚ) : '.' ∉ clipBase t := by
  intro hmem
  simp only [clipBase, List.mem_append] at hmem
  rcases hmem with h | h
  · exact absurd h (by decide)
  · exact dot_not_mem_strftime _ h

/-! ## Claim theorems -/

/-- C2 (evidence of the code bug): on an HTTP 500 response, src/main.py's
upload_video deletes both local files and returns True — because its deletion
for-loop and `return True` are not indented under the status-200 test —
while src/record.py's upload_video returns False and leaves both files on
disk, which is what main.py's own docstring ("delete local files after
successful upload") and the claim describe. -/
theorem C2_upload_500_divergence :
    MainPy.upload_video { rawPresent := true, mp4Present := true } (.response 500)
      = (true, { rawPresent := false, mp4Present := false }) ∧
    RecordPy.upload_video { rawPresent := true, mp4Present := true } (.response 500)
      = (false, { rawPresent := true, mp4Present := true }) :=
  ⟨rfl, rfl⟩

/-- C3 (counterexample): a zero-byte raw file — smaller than any positive
corruption threshold — still reaches the converter, and when conversion
succeeds it reaches the uploader too; the code has no size check at all. -/
theorem C3_counterexample :
    (record_and_convert 0 0).converterInvoked = true ∧
    (handle_motion 0 0 (.response 200)).uploadCalled = true :=
  ⟨rfl, rfl⟩

/-- C3 (amended): record_and_convert performs no minimum-size corruption
check: for every raw byte size the converter is invoked, and (when the
converter exits 0) the clip is submitted for upload regardless of the raw
size; no corruptCount or lastSuccessTimestamp exists in the code. -/
theorem C3_no_corruption_check (rawSize : ℕ) (ffmpegExit : ℤ) (post : PostOutcome) :
    (record_and_convert rawSize ffmpegExit).converterInvoked = true ∧
    (handle_motion rawSize 0 post).uploadCalled = true := by
  exact ⟨rfl, by simp [handle_motion, record_and_convert]⟩

/-- C5 (counterexample): with a readable backing file whose (already
trimmed) contents are "ABC123", the deviceId parameter sent with an upload
is still the fixed constant, not the file contents. -/
theorem C5_counterexample :
    deviceIdParam (some "ABC123") = "DEV3617" ∧ "DEV3617" ≠ "ABC123" :=
  ⟨rfl, by decide⟩

/-- C5 (amended): the deviceId request parameter sent with every upload is
the hardcoded constant "DEV3617", independent of the presence, readability
or contents of any backing storage file. -/
theorem C5_device_id_constant (identityFile : Option String) :
    deviceIdParam identityFile = "DEV3617" :=
  rfl

/-- C7 (counterexample): after a failed conversion (ffmpeg exit 1) the raw
file is NOT discarded by the caller — it stays on disk — although the clip
is indeed not uploaded. -/
theorem C7_counterexample :
    (handle_motion 100000 1 (.response 200)).finalFiles.rawPresent = true ∧
    (handle_motion 100000 1 (.response 200)).uploadCalled = false :=
  ⟨rfl, rfl⟩

/-- C7 (amended): after a successful conversion (exit 0) the converted path
is submitted for upload, but the raw file is not deleted at conversion time —
it is still present when upload_video is entered and is removed only by
upload_video's deletion step; after a failed conversion (non-zero exit) the
clip is not uploaded and the raw file is left in place (no deletion occurs
anywhere on that path). -/
theorem C7_conversion_disposition (rawSize : ℕ) (ffmpegExit : ℤ) (post : PostOutcome) :
    (ffmpegExit = 0 →
      (handle_motion rawSize ffmpegExit post).uploadCalled = true ∧
      (handle_motion rawSize ffmpegExit post).rawPresentAfterConvert = true) ∧
    (ffmpegExit ≠ 0 →
      (handle_motion rawSize ffmpegExit post).uploadCalled = false ∧
      (handle_motion rawSize ffmpegExit post).rawPresentAfterConvert = true ∧
      (handle_motion rawSize ffmpegExit post).finalFiles.rawPresent = true) := by
  by_cases h : ffmpegExit = 0 <;>
    simp [handle_motion, record_and_convert, h]

/-- C7 (witness): the amended theorem applied at concrete inputs. -/
theorem C7_witness :
    (handle_motion 100 1 (.response 200)).uploadCalled = false ∧
    (handle_motion 100 0 (.response 200)).uploadCalled = true :=
  ⟨((C7_conversion_disposition 100 1 (.response 200)).2 (by decide)).1,
   ((C7_conversion_disposition 100 0 (.response 200)).1 (by decide)).1⟩

/-- C4: in the liveness model built from the spec, the reboot action fires
at most once per process lifetime for any sequence of events (both the
corrupt-count path and the idle path funnel through the rebootTriggered
latch), and in the concrete scenario of three consecutive corrupt
recordings with threshold 3 the reboot is triggered exactly once with no
fourth recording attempted. -/
theorem C4_reboot_at_most_once (threshold : ℕ) (idleCeiling : ℚ) (evs : List LiveEvent) :
    (runLive threshold idleCeiling initLive evs).rebootCount ≤ 1 ∧
    runLive 3 3600 initLive
        [.motion .corrupt 10, .motion .corrupt 20, .motion .corrupt 30, .motion .corrupt 40]
      = { corruptCount := 3, lastSuccessTimestamp := 0, rebootTriggered := true,
          rebootCount := 1, recordingsAttempted := 3 } := by
  refine ⟨runLive_reboot_inv threshold idleCeiling evs initLive (fun _ => rfl) (by decide), ?_⟩
  decide

/-- C1: for every sequence of samples processed by the main loop (under any
motion-detection outcome function), consecutive recording starts are at
least VIDEO_DURATION + COOLDOWN_PERIOD apart, and since a recording keeps
the encoder active exactly on [start, start + VIDEO_DURATION], at most one
recording is active at any instant x; a motion event arriving while a
recording is active falls inside the cooldown window and starts nothing. -/
theorem C1_single_flight_recording {F : Type} (detect : F → F → Bool)
    (inputs : List (ℚ × F)) (x : ℚ) :
    List.Pairwise (fun a b => a + (VIDEO_DURATION + COOLDOWN_PERIOD) ≤ b)
      (recordingTimes (runLoop detect (initState F) inputs).2) ∧
    activeAt (runLoop detect (initState F) inputs).2 x ≤ 1 := by
  have h := (runLoop_recordings_sep detect inputs (initState F)).2
  exact ⟨h, pairwise_active_le_one _ x h⟩

/-- C10: after a recording is triggered at time t, every later iteration of
the loop that happens before t + VIDEO_DURATION + COOLDOWN_PERIOD is a pure
skip: no motion detection is performed there, and (second conjunct) a
skipped iteration leaves the loop state completely unchanged — motion inside
the window is dropped, not remembered as a pending recording. -/
theorem C10_cooldown_window {F : Type} (detect : F → F → Bool) (inputs : List (ℚ × F)) :
    (∀ (i j : ℕ) (ti tj : ℚ) (ej : LoopEvent), i < j →
      (runLoop detect (initState F) inputs).2[i]? = some (ti, LoopEvent.recorded) →
      (runLoop detect (initState F) inputs).2[j]? = some (tj, ej) →
      tj < ti + (VIDEO_DURATION + COOLDOWN_PERIOD) → ej = LoopEvent.skipped) ∧
    (∀ (st : LoopState F) (t : ℚ) (f : F),
      (loopStep detect st t f).2 = LoopEvent.skipped → (loopStep detect st t f).1 = st) := by
  exact ⟨fun i j ti tj ej hij hi hj hlt =>
      recorded_then_skip detect inputs (initState F) i j ti tj ej hij hi hj hlt,
    fun st t f h => loopStep_skipped_eq detect st t f h⟩

/-- C10 (witness): in the concrete run [(100,·),(101,·),(102,·)] with motion
always detected, iteration 1 records at time 101 and iteration 2 at time 102
falls inside the window; the theorem yields that it was skipped. -/
theorem C10_witness :
    (102 : ℚ) < 101 + (VIDEO_DURATION + COOLDOWN_PERIOD) ∧
    LoopEvent.skipped = LoopEvent.skipped :=
  ⟨by norm_num [VIDEO_DURATION, COOLDOWN_PERIOD],
   (C10_cooldown_window (fun (_ _ : Unit) => true) [(100, ()), (101, ()), (102, ())]).1
     1 2 101 102 LoopEvent.skipped (by norm_num)
     (by norm_num [runLoop, loopStep, initState, VIDEO_DURATION, COOLDOWN_PERIOD])
     (by norm_num [runLoop, loopStep, initState, VIDEO_DURATION, COOLDOWN_PERIOD])
     (by norm_num [VIDEO_DURATION, COOLDOWN_PERIOD])⟩

/-- C6 (counterexample): with motion always detected, run the loop on
samples at times 100, 101, 102 carrying frames 0, 1, 2.  The third
iteration (well after the first) captures frame 2, yet because it falls in
the cooldown window of the recording triggered at 101 it is skipped and the
stored previous frame stays 1 — contradicting "in every iteration after the
first, previous is advanced to the current captured frame". -/
theorem C6_counterexample :
    (runLoop (fun (_ _ : ℕ) => true) (initState ℕ)
        [(100, 0), (101, 1), (102, 2)]).2[2]? = some (102, LoopEvent.skipped) ∧
    (runLoop (fun (_ _ : ℕ) => true) (initState ℕ)
        [(100, 0), (101, 1), (102, 2)]).1.prevFrame = some 1 ∧
    (runLoop (fun (_ _ : ℕ) => true) (initState ℕ)
        [(100, 0), (101, 1), (102, 2)]).1.prevFrame ≠ some 2 := by
  refine ⟨?_, ?_, ?_⟩ <;>
    norm_num [runLoop, loopStep, initState, VIDEO_DURATION, COOLDOWN_PERIOD]

/-- C6 (amended): on the first iteration the captured frame only seeds
previous (no detection); afterwards, in every iteration that reaches the
detection step (i.e. is not rejected by the recording/cooldown guard),
previous is advanced to the current captured frame regardless of the
detection outcome; an iteration rejected by the guard performs no detection
and leaves the whole state — including previous — unchanged. -/
theorem C6_prev_frame_advance {F : Type} (detect : F → F → Bool) (st : LoopState F)
    (t : ℚ) (f : F) :
    (st.prevFrame = none →
      loopStep detect st t f = ({ st with prevFrame := some f }, LoopEvent.seeded)) ∧
    (∀ p, st.prevFrame = some p →
      ¬(st.isRecording = true ∨ t - st.lastMotionTime < VIDEO_DURATION + COOLDOWN_PERIOD) →
      (loopStep detect st t f).1.prevFrame = some f) ∧
    (∀ p, st.prevFrame = some p →
      (st.isRecording = true ∨ t - st.lastMotionTime < VIDEO_DURATION + COOLDOWN_PERIOD) →
      loopStep detect st t f = (st, LoopEvent.skipped)) := by
  refine ⟨fun hp => loopStep_none detect st t f hp, ?_, ?_⟩
  · intro p hp hg
    cases hd : detect p f with
    | false => rw [loopStep_noMotion detect st t f p hp hg hd]
    | true => rw [loopStep_rec detect st t f p hp hg hd]
  · intro p hp hg
    exact loopStep_skip detect st t f p hp hg

/-- C6 (witness): the amended theorem applied at concrete states — seeding,
advancing past the guard, and the guard-skip leaving the state unchanged. -/
theorem C6_witness :
    loopStep (fun (_ _ : ℕ) => false) (initState ℕ) 100 7
      = ({ prevFrame := some 7, lastMotionTime := 0, isRecording := false },
          LoopEvent.seeded) ∧
    (loopStep (fun (_ _ : ℕ) => false)
      { prevFrame := some 5, lastMotionTime := 0, isRecording := false } 100 7).1.prevFrame
      = some 7 ∧
    loopStep (fun (_ _ : ℕ) => false)
      { prevFrame := some 5, lastMotionTime := 99, isRecording := false } 100 7
      = ({ prevFrame := some 5, lastMotionTime := 99, isRecording := false },
          LoopEvent.skipped) :=
  ⟨(C6_prev_frame_advance (fun (_ _ : ℕ) => false) (initState ℕ) 100 7).1 rfl,
   (C6_prev_frame_advance (fun (_ _ : ℕ) => false)
      { prevFrame := some 5, lastMotionTime := 0, isRecording := false } 100 7).2.1
     5 rfl (by norm_num [VIDEO_DURATION, COOLDOWN_PERIOD]),
   (C6_prev_frame_advance (fun (_ _ : ℕ) => false)
      { prevFrame := some 5, lastMotionTime := 99, isRecording := false } 100 7).2.2
     5 rfl (by norm_num [VIDEO_DURATION, COOLDOWN_PERIOD])⟩

/-- C8 (counterexample): two distinct recording-start instants half a second
apart — within the same wall-clock second — produce identical raw clip
names: the format string %Y%m%d_%H%M%S has no sub-second field, so naming is
NOT sub-second precise and two such recordings would collide. -/
theorem C8_counterexample :
    rawClipName 1758796800 = rawClipName (1758796800 + 1/2) ∧
    (1758796800 : ℚ) ≠ 1758796800 + 1/2 := by
  constructor
  · have h : wholeSeconds (1758796800 + 1/2) = wholeSeconds 1758796800 := by
      unfold wholeSeconds
      norm_num
    simp only [rawClipName, clipBase, h]
  · norm_num

/-- C8 (amended): every clip's base name is derived from its recording-start
timestamp truncated to whole seconds ("motion_" + %Y%m%d_%H%M%S, no
sub-second component — so two recordings started within the same second
would collide), and the raw and converted files of one clip share that base
name, differing only in the extension (.h264 vs .mp4). -/
theorem C8_clip_naming (t : ℚ) :
    rawClipName t = clipBase t ++ ".h264".data ∧
    mp4ClipName t = clipBase t ++ ".mp4".data ∧
    clipBase t = "motion_".data ++ strftimeYmdHMS (wholeSeconds t) := by
  refine ⟨rfl, ?_, rfl⟩
  have hd : '.' ∉ clipBase t := dot_not_mem_clipBase t
  have hrepr : ".h264".data = '.' :: "h264".data := rfl
  show pyReplace ".h264".data ".mp4".data (rawClipName t) = clipBase t ++ ".mp4".data
  rw [show rawClipName t = clipBase t ++ ".h264".data from rfl, hrepr,
    pyReplace_tail '.' "h264".data ".mp4".data (clipBase t) hd]

/-- C9: when the output directory is not writable, main returns before the
camera object is constructed: the camera is never started, no loop iteration
runs, and consequently no recording (and no upload) is ever attempted. -/
theorem C9_abort_on_unwritable_directory {F : Type} (detect : F → F → Bool)
    (inputs : List (ℚ × F)) :
    mainProgram false detect inputs = { cameraStarted := false, iterations := [] } ∧
    recordingTimes (mainProgram false detect inputs).iterations = [] := by
  exact ⟨rfl, rfl⟩

end VisitWise
